import Mathlib

/-!
Verification of the tenant-isolation and sharding core of the
multi-tenant gradebook service.

Python strings are embedded as lists of characters (`PyStr`), so that all
string operations reduce in the kernel.  Each definition mirrors one
function of the source (`app/middleware/tenant.py`,
`app/database/connection.py`, `app/database/models.py`, `app/config.py`);
stateful code is embedded as explicit state passing.
-/

/-- Python strings, embedded as lists of characters. -/
abbrev PyStr := List Char

/-- ASCII lower-casing of one character, as Python `str.lower` does for ASCII. -/
def pyLowerChar (c : Char) : Char :=
  if c.isUpper then Char.ofNat (c.toNat + 32) else c

/-- Python `str.lower` (ASCII fragment). -/
def pyLower (s : PyStr) : PyStr := s.map pyLowerChar

/-- Auxiliary for `pySplit`: accumulates the current field in reverse. -/
def pySplitAux (sep : Char) : PyStr → PyStr → List PyStr
  | [], acc => [acc.reverse]
  | c :: rest, acc =>
    if c = sep then acc.reverse :: pySplitAux sep rest []
    else pySplitAux sep rest (c :: acc)

/-- Python `str.split(sep)` for a one-character separator:
splitting the empty string yields `[""]`, adjacent separators yield empty fields. -/
def pySplit (sep : Char) (s : PyStr) : List PyStr := pySplitAux sep s []

/-- Python `str.strip()` (ASCII whitespace fragment). -/
def pyTrim (s : PyStr) : PyStr :=
  ((s.dropWhile Char.isWhitespace).reverse.dropWhile Char.isWhitespace).reverse

/-- One character of the pattern `[a-z0-9-]` used for subdomains. -/
def isSubdomainChar (c : Char) : Bool :=
  c.isLower || c.isDigit || c == '-'

/-- The regex `^[a-z0-9-]+$` from `_detect_from_subdomain`. -/
def subdomainPatternOk (s : PyStr) : Bool :=
  (decide (s ≠ [])) && s.all isSubdomainChar

/-- One character of the pattern `[a-zA-Z0-9-_]` used for tenant ids. -/
def isTenantIdChar (c : Char) : Bool :=
  c.isAlpha || c.isDigit || c == '-' || c == '_'

/-- The regex `^[a-zA-Z0-9-_]+$` from `_detect_from_header` / `_detect_from_query`. -/
def tenantIdPatternOk (s : PyStr) : Bool :=
  (decide (s ≠ [])) && s.all isTenantIdChar

/-- The regex `^\d+\.\d+\.\d+\.\d+$` from `_detect_from_subdomain`:
a bare IPv4 address is four nonempty all-digit labels. -/
def isIPv4 (s : PyStr) : Bool :=
  let ps := pySplit '.' s
  ps.length == 4 && ps.all (fun p => (decide (p ≠ [])) && p.all Char.isDigit)

/-- The request signals consumed by the tenant resolver.  Each field holds the
raw header or query-parameter value, with the empty string standing for an
absent signal, matching `request.headers.get(name, "")`. -/
structure HttpRequestSignals where
  host : PyStr
  xTenantIdHeader : PyStr
  tenantIdQueryParam : PyStr
deriving DecidableEq, Repr

/-- Embeds `TenantMiddleware._detect_from_subdomain`: lower-case the host,
drop the port, reject localhost and bare IPv4 addresses, then return the
first of at least three dot-separated labels when it matches `[a-z0-9-]{2,}`. -/
def detect_from_subdomain (hostRaw : PyStr) : Option PyStr :=
  let host := (pySplit ':' (pyLower hostRaw)).headD []
  if host = ("localhost").data ∨ host = ("127.0.0.1").data ∨ isIPv4 host = true then
    none
  else
    let parts := pySplit '.' host
    if 3 ≤ parts.length then
      let sub := parts.headD []
      if subdomainPatternOk sub = true ∧ 2 ≤ sub.length then some sub else none
    else
      none

/-- Embeds `TenantMiddleware._detect_from_header`: trim the `X-Tenant-ID`
header, require the tenant-id pattern, and lower-case the result. -/
def detect_from_header (headerRaw : PyStr) : Option PyStr :=
  let t := pyTrim headerRaw
  if t ≠ [] ∧ tenantIdPatternOk t = true then some (pyLower t) else none

/-- Embeds `TenantMiddleware._detect_from_query`: same validation as the
header, applied to the `tenant_id` query parameter. -/
def detect_from_query (queryRaw : PyStr) : Option PyStr :=
  let t := pyTrim queryRaw
  if t ≠ [] ∧ tenantIdPatternOk t = true then some (pyLower t) else none

/-- The detection record built by `TenantMiddleware._detect_tenant`. -/
structure TenantInfo where
  method : PyStr
  identifier : PyStr
  lookupType : PyStr
deriving DecidableEq, Repr

/-- Embeds `TenantMiddleware._detect_tenant`: subdomain first, then the
`X-Tenant-ID` header, then the `tenant_id` query parameter; `none` when no
method yields a valid identifier. -/
def detect_tenant (req : HttpRequestSignals) : Option TenantInfo :=
  match detect_from_subdomain req.host with
  | some s => some ⟨("subdomain").data, s, ("subdomain").data⟩
  | none =>
    match detect_from_header req.xTenantIdHeader with
    | some t => some ⟨("header").data, t, ("tenant_id").data⟩
    | none =>
      match detect_from_query req.tenantIdQueryParam with
      | some q => some ⟨("query").data, q, ("tenant_id").data⟩
      | none => none

/-- A row of the tenant registry table, with the fields the source reads and
writes: `tenant_id`, `tenant_name`, `subdomain`, `shard_number`, `is_active`
(`TenantRegistry` as used by `connection.py` and `tenant.py`). -/
structure TenantRecord where
  tenant_id : PyStr
  tenant_name : PyStr
  subdomain : PyStr
  shard_number : Nat
  is_active : Bool
deriving DecidableEq, Repr

/-- Association-list lookup, embedding Python dict lookup. -/
def alookup {α β : Type} [DecidableEq α] : List (α × β) → α → Option β
  | [], _ => none
  | (k, v) :: t, a => if k = a then some v else alookup t a

/-- First registry row whose `tenant_id` equals the identifier, regardless of
active status (the unfiltered `select` in `DatabaseManager.get_tenant_shard`). -/
def find_by_tenant_id : List TenantRecord → PyStr → Option TenantRecord
  | [], _ => none
  | r :: t, tid => if r.tenant_id = tid then some r else find_by_tenant_id t tid

/-- First registry row whose `tenant_id` equals the identifier and which is
active (the filtered `select` in `TenantMiddleware._validate_tenant`). -/
def find_by_tenant_id_active : List TenantRecord → PyStr → Option TenantRecord
  | [], _ => none
  | r :: t, tid =>
    if r.tenant_id = tid ∧ r.is_active = true then some r
    else find_by_tenant_id_active t tid

/-- First active registry row with the given subdomain
(`DatabaseManager.get_tenant_by_subdomain`). -/
def find_by_subdomain_active : List TenantRecord → PyStr → Option TenantRecord
  | [], _ => none
  | r :: t, sub =>
    if r.subdomain = sub ∧ r.is_active = true then some r
    else find_by_subdomain_active t sub

/-- The registry lookup performed by `TenantMiddleware._validate_tenant` for a
detection record: by subdomain when the lookup type is `subdomain`, otherwise
by tenant id; both lookups require the row to be active. -/
def registry_lookup (reg : List TenantRecord) (info : TenantInfo) : Option TenantRecord :=
  if info.lookupType = ("subdomain").data then
    find_by_subdomain_active reg info.identifier
  else
    find_by_tenant_id_active reg info.identifier

/-- The cache key `f"{lookup_type}:{identifier}"` of `_validate_tenant`. -/
def cacheKey (info : TenantInfo) : PyStr :=
  info.lookupType ++ ':' :: info.identifier

/-- The middleware's in-process validation cache `self.tenant_cache`, mapping
cache keys to lookup results (a `none` value records a failed lookup). -/
abbrev TenantCache := List (PyStr × Option TenantRecord)

/-- Embeds `TenantMiddleware._validate_tenant`: return the cached result when
the key is present; otherwise consult the registry and cache the result,
including `none` for a miss. -/
def validate_tenant (cache : TenantCache) (reg : List TenantRecord)
    (info : TenantInfo) : Option TenantRecord × TenantCache :=
  match alookup cache (cacheKey info) with
  | some v => (v, cache)
  | none =>
    let r := registry_lookup reg info
    (r, (cacheKey info, r) :: cache)

/-- The JSON error response produced by the middleware, with its status code
and body fields. -/
structure TenantErrorResponse where
  status : Nat
  error : PyStr
  message : PyStr
  detected_method : PyStr
deriving DecidableEq, Repr

/-- Embeds `TenantMiddleware._handle_invalid_tenant`: a 404 response whose
body depends only on the detection record, never on why validation failed. -/
def handle_invalid_tenant (info : TenantInfo) : TenantErrorResponse :=
  ⟨404,
   ("Tenant not found").data,
   ("The tenant ").data ++ Char.ofNat 39 :: info.identifier ++
     Char.ofNat 39 :: (" was not found or is not active.").data,
   info.method⟩

/-- Outcome of the middleware validation step of `TenantMiddleware.dispatch`
for a detected tenant: an error response, or the validated record attached to
the request state. -/
inductive DispatchOutcome where
  | errorResponse (r : TenantErrorResponse)
  | handled (tenant : TenantRecord)
deriving DecidableEq, Repr

/-- Embeds steps 2 and 3 of `TenantMiddleware.dispatch` for a detected tenant:
validate it (through the cache) and either return the invalid-tenant response
or proceed with the validated record. -/
def dispatch_validated (cache : TenantCache) (reg : List TenantRecord)
    (info : TenantInfo) : DispatchOutcome × TenantCache :=
  match validate_tenant cache reg info with
  | (none, c) => (.errorResponse (handle_invalid_tenant info), c)
  | (some r, c) => (.handled r, c)

/-- The two `ValueError` sites of `DatabaseManager.get_tenant_shard`. -/
inductive SessionError where
  | tenantNotFound
  | tenantInactive
deriving DecidableEq, Repr

/-- Embeds `DatabaseManager.get_tenant_shard`: query the registry with no
cache, fail when the row is missing, fail when it is inactive, otherwise
return its shard number. -/
def get_tenant_shard (reg : List TenantRecord) (tid : PyStr) : Except SessionError Nat :=
  match find_by_tenant_id reg tid with
  | none => .error .tenantNotFound
  | some r => if r.is_active = true then .ok r.shard_number else .error .tenantInactive

/-- The scoped session handed out by `DatabaseManager.get_tenant_session`:
a shard-bound handle tagged with the tenant identifier
(`session.info` carries `tenant_id` and `shard_number`). -/
structure ScopedSessionInfo where
  tenant_id : PyStr
  shard_number : Nat
deriving DecidableEq, Repr

/-- Embeds `DatabaseManager.get_tenant_session`: resolve the shard through
`get_tenant_shard` and return a session bound to that shard and tenant. -/
def get_tenant_session (reg : List TenantRecord) (tid : PyStr) :
    Except SessionError ScopedSessionInfo :=
  match get_tenant_shard reg tid with
  | .error e => .error e
  | .ok n => .ok ⟨tid, n⟩

/-- Outcome of middleware validation followed by the handler opening a
tenant session. -/
inductive PipelineOutcome where
  | invalidTenant
  | sessionError (e : SessionError)
  | session (s : ScopedSessionInfo)
deriving DecidableEq, Repr

/-- The request pipeline relevant to session opening: the middleware validates
the detected tenant (possibly answering from its cache), and on success the
handler opens a session for the validated record's tenant id through
`DatabaseManager.get_tenant_session`. -/
def validate_then_open (cache : TenantCache) (reg : List TenantRecord)
    (info : TenantInfo) : PipelineOutcome × TenantCache :=
  match validate_tenant cache reg info with
  | (none, c) => (.invalidTenant, c)
  | (some r, c) =>
    match get_tenant_session reg r.tenant_id with
    | .error e => (.sessionError e, c)
    | .ok s => (.session s, c)

/-- The shard pool configured in `Settings`: shard 1 is mandatory
(`database_shard_1_url`), shards 2 and 3 are present when their optional
database URLs are configured. -/
structure ShardSettings where
  hasShard2 : Bool
  hasShard3 : Bool
deriving DecidableEq, Repr

/-- Embeds the key set of `Settings.database_shard_urls`: `{1}` always, plus
`2` and `3` when configured, in increasing order (Python dict insertion order). -/
def database_shard_ids (s : ShardSettings) : List Nat :=
  [1] ++ (if s.hasShard2 then [2] else []) ++ (if s.hasShard3 then [3] else [])

/-- `shard_counts.get(s, 0)`: the tenant count recorded for a shard, zero when
the shard has no entry in the grouped counts. -/
def count_get (counts : List (Nat × Nat)) (k : Nat) : Nat :=
  (alookup counts k).getD 0

/-- Python `min(a :: t, key=key)`: the first element attaining the minimum key,
computed by a left fold that replaces the best only on a strictly smaller key. -/
def py_min_by (key : Nat → Nat) (a : Nat) (t : List Nat) : Nat :=
  t.foldl (fun best x => if key x < key best then x else best) a

/-- Embeds `DatabaseManager._get_least_loaded_shard` after its count query:
with no tenants yet, use the first configured shard; otherwise return the
configured shard minimising its recorded count (missing entries count as 0). -/
def least_loaded_shard (s : ShardSettings) (counts : List (Nat × Nat)) : Nat :=
  let avail := database_shard_ids s
  if counts.isEmpty then avail.headD 0
  else
    match avail with
    | [] => 0
    | a :: t => py_min_by (count_get counts) a t

/-- Increment the count recorded for a shard in an association list. -/
def bump_count : List (Nat × Nat) → Nat → List (Nat × Nat)
  | [], n => [(n, 1)]
  | (k, c) :: t, n =>
    if k = n then (k, c + 1) :: t else (k, c) :: bump_count t n

/-- The grouped count query of `_get_least_loaded_shard`: tenants per shard,
over every registry row regardless of active status. -/
def shard_counts (reg : List TenantRecord) : List (Nat × Nat) :=
  reg.foldl (fun acc r => bump_count acc r.shard_number) []

/-- The registration failure of the tenant registry. -/
inductive CreateError where
  | duplicateTenant
deriving DecidableEq, Repr

/-- Modelled from the spec: the `TenantRegistry` table's uniqueness constraints
are not under `src/` (the ORM class is imported but defined elsewhere); per the
spec, a duplicate identifier or routing key is rejected by the store's
uniqueness constraint at insert time, not by a pre-check. -/
def duplicate_exists (reg : List TenantRecord) (tid sub : PyStr) : Bool :=
  reg.any (fun r => decide (r.tenant_id = tid) || decide (r.subdomain = sub))

/-- Embeds `DatabaseManager.create_tenant`: compute the least-loaded shard from
a fresh count of the current registry, build an active record on that shard,
and insert it atomically; the insert fails with `DuplicateTenant` and leaves
the registry unchanged when the identifier or subdomain is already taken
(uniqueness enforced by the store, modelled by `duplicate_exists`). -/
def create_tenant (s : ShardSettings) (reg : List TenantRecord)
    (tid name sub : PyStr) : Except CreateError TenantRecord × List TenantRecord :=
  let shard := least_loaded_shard s (shard_counts reg)
  let r : TenantRecord := ⟨tid, name, sub, shard, true⟩
  if duplicate_exists reg tid sub then (.error .duplicateTenant, reg)
  else (.ok r, reg ++ [r])

/-- A record with its active flag cleared and every other field unchanged. -/
def set_inactive (r : TenantRecord) : TenantRecord :=
  ⟨r.tenant_id, r.tenant_name, r.subdomain, r.shard_number, false⟩

/-- Modelled from the spec: `deactivate(identifier)` is part of the registry
contract but not under `src/`; per the spec it sets `active=false` and deletes
nothing, leaving every other field of the record unchanged. -/
def deactivate_tenant (reg : List TenantRecord) (tid : PyStr) : List TenantRecord :=
  reg.map (fun r => if r.tenant_id = tid then set_inactive r else r)

/-- The registry-mutating operations of the system: tenant creation
(`DatabaseManager.create_tenant`) and deactivation (modelled from the spec). -/
inductive RegistryOp where
  | createOp (tid name sub : PyStr)
  | deactivateOp (tid : PyStr)
deriving DecidableEq, Repr

/-- Apply one registry operation to the registry state. -/
def apply_op (s : ShardSettings) (reg : List TenantRecord) : RegistryOp → List TenantRecord
  | .createOp tid name sub => (create_tenant s reg tid name sub).snd
  | .deactivateOp tid => deactivate_tenant reg tid

/-- Apply a sequence of registry operations in order. -/
def apply_ops (s : ShardSettings) (reg : List TenantRecord)
    (ops : List RegistryOp) : List TenantRecord :=
  ops.foldl (apply_op s) reg

/-- A student row, with the columns the tenant-aware helpers read
(`Student` carries `tenant_id` through `TenantMixin`). -/
structure StudentRow where
  id : Nat
  tenant_id : PyStr
  student_number : PyStr
  is_active : Bool
deriving DecidableEq, Repr

/-- A grade row, with the columns the tenant-aware helpers read
(`Grade` carries `tenant_id` through `TenantMixin`). -/
structure GradeRow where
  id : Nat
  tenant_id : PyStr
  student_id : Nat
deriving DecidableEq, Repr

/-- The tables of one shard visible to a session. -/
structure ShardDb where
  students : List StudentRow
  grades : List GradeRow
deriving DecidableEq, Repr

/-- `TenantAwareQuery.query(Student)`: `Student` has a `tenant_id` attribute,
so the automatic tenant filter applies. -/
def taq_query_students (db : ShardDb) (tid : PyStr) : List StudentRow :=
  db.students.filter (fun s => decide (s.tenant_id = tid))

/-- `TenantAwareQuery.query(Grade)`: `Grade` has a `tenant_id` attribute,
so the automatic tenant filter applies. -/
def taq_query_grades (db : ShardDb) (tid : PyStr) : List GradeRow :=
  db.grades.filter (fun g => decide (g.tenant_id = tid))

/-- Embeds `TenantAwareQuery.get_student`: the tenant-filtered student query,
further filtered by primary key, first row or `none`. -/
def taq_get_student (db : ShardDb) (tid : PyStr) (sid : Nat) : Option StudentRow :=
  ((taq_query_students db tid).filter (fun s => decide (s.id = sid))).head?

/-- Embeds `TenantAwareQuery.get_student_by_number`. -/
def taq_get_student_by_number (db : ShardDb) (tid : PyStr) (num : PyStr) : Option StudentRow :=
  ((taq_query_students db tid).filter (fun s => decide (s.student_number = num))).head?

/-- Embeds `TenantAwareQuery.get_active_students`. -/
def taq_get_active_students (db : ShardDb) (tid : PyStr) : List StudentRow :=
  (taq_query_students db tid).filter (fun s => s.is_active)

/-- Embeds `TenantAwareQuery.get_grades_for_student`. -/
def taq_get_grades_for_student (db : ShardDb) (tid : PyStr) (sid : Nat) : List GradeRow :=
  (taq_query_grades db tid).filter (fun g => decide (g.student_id = sid))

/-- A row of an arbitrary model class, for the generic
`TenantAwareQuery.query(model_class)`: `tenantVal` is the value of the row's
`tenant_id` column when the class has one. -/
structure GenericRow where
  pk : Nat
  tenantVal : PyStr
deriving DecidableEq, Repr

/-- Embeds the generic `TenantAwareQuery.query`: the tenant filter is applied
only when the model class has a `tenant_id` attribute (`hasattr` check);
any other model class is queried unfiltered. -/
def tenant_aware_query (hasTenantIdAttr : Bool) (rows : List GenericRow)
    (tid : PyStr) : List GenericRow :=
  if hasTenantIdAttr then rows.filter (fun r => decide (r.tenantVal = tid)) else rows

/-- A Python object as seen by `validate_tenant_ownership`: `tenantAttr` is
`some v` when the object has a `tenant_id` attribute with value `v`, and
`none` when `hasattr(obj, 'tenant_id')` is false. -/
structure PyObject where
  tenantAttr : Option PyStr
deriving DecidableEq, Repr

/-- The `HTTPException(status_code=403)` raised by `validate_tenant_ownership`. -/
inductive OwnershipError where
  | accessDenied403
deriving DecidableEq, Repr

/-- Embeds `validate_tenant_ownership` from `app/middleware/tenant.py`: raise
403 when the object has a `tenant_id` attribute whose value differs from the
expected tenant; otherwise, including for objects without the attribute,
return normally. -/
def validate_tenant_ownership (obj : PyObject) (tid : PyStr) :
    Except OwnershipError Unit :=
  match obj.tenantAttr with
  | some v => if v ≠ tid then .error .accessDenied403 else .ok ()
  | none => .ok ()

/-- The body of `detect_from_subdomain` applied to the already lower-cased,
port-stripped host (definitionally equal reshaping used in proofs). -/
def detect_from_subdomain_core (h : PyStr) : Option PyStr :=
  if h = ("localhost").data ∨ h = ("127.0.0.1").data ∨ isIPv4 h = true then
    none
  else if 3 ≤ (pySplit '.' h).length then
    if subdomainPatternOk ((pySplit '.' h).headD []) = true ∧
        2 ≤ ((pySplit '.' h).headD []).length then
      some ((pySplit '.' h).headD [])
    else none
  else none

/-- Whether a registry row matches a detection record under the lookup the
middleware performs for it: by subdomain for subdomain detections, by tenant
id otherwise, ignoring the active flag. -/
def record_matches (info : TenantInfo) (r : TenantRecord) : Prop :=
  if info.lookupType = ("subdomain").data then r.subdomain = info.identifier
  else r.tenant_id = info.identifier

instance (info : TenantInfo) (r : TenantRecord) : Decidable (record_matches info r) := by
  unfold record_matches
  infer_instance

lemma head?_eq_some_mem {α : Type} {l : List α} {a : α} (h : l.head? = some a) : a ∈ l := by
  cases l with
  | nil => simp at h
  | cons x t =>
    simp [List.head?] at h
    simp [h]

lemma mem_taq_query_students {db : ShardDb} {tid : PyStr} {s : StudentRow}
    (h : s ∈ taq_query_students db tid) : s.tenant_id = tid := by
  unfold taq_query_students at h
  rw [List.mem_filter] at h
  exact of_decide_eq_true h.2

lemma mem_taq_query_grades {db : ShardDb} {tid : PyStr} {g : GradeRow}
    (h : g ∈ taq_query_grades db tid) : g.tenant_id = tid := by
  unfold taq_query_grades at h
  rw [List.mem_filter] at h
  exact of_decide_eq_true h.2

/-- C1: cross-tenant isolation of the tenant-aware query helper.  Every row
returned by any read operation of a helper created for tenant `a` carries
tenant identifier `a`; hence for any distinct tenant `b`, no row of `b` is
ever returned, regardless of the entity id, student number, or student id
supplied.  The helper has no write operations, so no entity of another tenant
is modified through it. -/
theorem c1_tenant_scoped_query_isolation (db : ShardDb) (a b : PyStr) (hne : b ≠ a) :
    (∀ s ∈ taq_get_active_students db a, s.tenant_id = a ∧ s.tenant_id ≠ b) ∧
    (∀ sid s, taq_get_student db a sid = some s → s.tenant_id = a ∧ s.tenant_id ≠ b) ∧
    (∀ num s, taq_get_student_by_number db a num = some s →
       s.tenant_id = a ∧ s.tenant_id ≠ b) ∧
    (∀ sid g, g ∈ taq_get_grades_for_student db a sid →
       g.tenant_id = a ∧ g.tenant_id ≠ b) := by
  have hba : ∀ x : PyStr, x = a → x ≠ b := by
    intro x hx hb
    exact hne (hb ▸ hx)
  refine ⟨?_, ?_, ?_, ?_⟩
  · intro s hs
    unfold taq_get_active_students at hs
    rw [List.mem_filter] at hs
    have := mem_taq_query_students hs.1
    exact ⟨this, hba _ this⟩
  · intro sid s hs
    unfold taq_get_student at hs
    have hm := head?_eq_some_mem hs
    rw [List.mem_filter] at hm
    have := mem_taq_query_students hm.1
    exact ⟨this, hba _ this⟩
  · intro num s hs
    unfold taq_get_student_by_number at hs
    have hm := head?_eq_some_mem hs
    rw [List.mem_filter] at hm
    have := mem_taq_query_students hm.1
    exact ⟨this, hba _ this⟩
  · intro sid g hg
    unfold taq_get_grades_for_student at hg
    rw [List.mem_filter] at hg
    have := mem_taq_query_grades hg.1
    exact ⟨this, hba _ this⟩

/-- Witness for C1 at a concrete database: the single active student of
tenant `a` is returned with tenant identifier `a`, which differs from `b`. -/
theorem c1_tenant_scoped_query_isolation_witness :
    (⟨1, ("a").data, ("n1").data, true⟩ : StudentRow).tenant_id = ("a").data ∧
    (⟨1, ("a").data, ("n1").data, true⟩ : StudentRow).tenant_id ≠ ("b").data :=
  (c1_tenant_scoped_query_isolation
      ⟨[⟨1, ("a").data, ("n1").data, true⟩], []⟩
      (("a").data) (("b").data) (by decide)).1
    ⟨1, ("a").data, ("n1").data, true⟩ (by decide)

/-- C4: resolver precedence.  Tenant detection tries the subdomain first, then
the `X-Tenant-ID` header, then the `tenant_id` query parameter; the first
method yielding a valid identifier wins; with both a valid subdomain and a
valid header of a different value, the subdomain's value is returned; when no
method matches, the result is unresolved (`none`). -/
theorem c4_resolver_precedence (req : HttpRequestSignals) :
    (∀ s, detect_from_subdomain req.host = some s →
       detect_tenant req = some ⟨("subdomain").data, s, ("subdomain").data⟩) ∧
    (detect_from_subdomain req.host = none →
       ∀ t, detect_from_header req.xTenantIdHeader = some t →
         detect_tenant req = some ⟨("header").data, t, ("tenant_id").data⟩) ∧
    (detect_from_subdomain req.host = none →
       detect_from_header req.xTenantIdHeader = none →
         ∀ q, detect_from_query req.tenantIdQueryParam = some q →
           detect_tenant req = some ⟨("query").data, q, ("tenant_id").data⟩) ∧
    (detect_from_subdomain req.host = none →
       detect_from_header req.xTenantIdHeader = none →
         detect_from_query req.tenantIdQueryParam = none →
           detect_tenant req = none) ∧
    (∀ s t, detect_from_subdomain req.host = some s →
       detect_from_header req.xTenantIdHeader = some t → s ≠ t →
         (detect_tenant req).map TenantInfo.identifier = some s) := by
  refine ⟨?_, ?_, ?_, ?_, ?_⟩ <;> intros <;> simp_all [detect_tenant]

/-- Witness for C4: a request whose host carries subdomain `school1` and whose
header carries the different valid identifier `school2` resolves to `school1`. -/
theorem c4_resolver_precedence_witness :
    (detect_tenant ⟨("school1.gradeinsight.com").data, ("school2").data, []⟩).map
      TenantInfo.identifier = some (("school1").data) :=
  (c4_resolver_precedence
      ⟨("school1.gradeinsight.com").data, ("school2").data, []⟩).2.2.2.2
    (("school1").data) (("school2").data) (by decide) (by decide) (by decide)

/-- C9: validation-cache permanence.  A cached entry is answered from the
cache without consulting the registry and leaves the cache unchanged; after a
result has been computed once, every later validation of the same
(lookup-type, identifier) pair returns that exact result, whatever the registry
now contains, and cache entries are never removed. -/
theorem c9_validation_cache_permanence (c : TenantCache)
    (reg reg' : List TenantRecord) (info : TenantInfo) :
    (∀ v, alookup c (cacheKey info) = some v →
       validate_tenant c reg info = (v, c) ∧
       validate_tenant c reg info = validate_tenant c reg' info) ∧
    (validate_tenant (validate_tenant c reg info).snd reg' info =
       ((validate_tenant c reg info).fst, (validate_tenant c reg info).snd)) ∧
    (∀ k v, alookup c k = some v →
       alookup (validate_tenant c reg info).snd k = some v) := by
  refine ⟨?_, ?_, ?_⟩
  · intro v hv
    unfold validate_tenant
    rw [hv]
    exact ⟨rfl, rfl⟩
  · unfold validate_tenant
    cases h : alookup c (cacheKey info) with
    | some v => simp [h]
    | none => simp [h, alookup]
  · intro k v hv
    unfold validate_tenant
    cases h : alookup c (cacheKey info) with
    | some w => simpa using hv
    | none =>
      simp only [alookup]
      by_cases hk : cacheKey info = k
      · rw [hk] at h
        rw [h] at hv
        exact absurd hv (by simp)
      · simp [hk, hv]

/-- Witness for C9: after a first validation against a registry holding an
active record, re-validating against an emptied registry still returns that
record from the cache, with the cache unchanged. -/
theorem c9_validation_cache_permanence_witness :
    validate_tenant
        [(cacheKey ⟨("header").data, ("t1").data, ("tenant_id").data⟩,
          some ⟨("t1").data, ("T").data, ("t1").data, 1, true⟩)]
        [] ⟨("header").data, ("t1").data, ("tenant_id").data⟩ =
      (some ⟨("t1").data, ("T").data, ("t1").data, 1, true⟩,
       [(cacheKey ⟨("header").data, ("t1").data, ("tenant_id").data⟩,
         some ⟨("t1").data, ("T").data, ("t1").data, 1, true⟩)]) :=
  ((c9_validation_cache_permanence
      [(cacheKey ⟨("header").data, ("t1").data, ("tenant_id").data⟩,
        some ⟨("t1").data, ("T").data, ("t1").data, 1, true⟩)]
      [] [⟨("t1").data, ("T").data, ("t1").data, 1, true⟩]
      ⟨("header").data, ("t1").data, ("tenant_id").data⟩).1
    (some ⟨("t1").data, ("T").data, ("t1").data, 1, true⟩) (by decide)).1

/-- C10: ownership checks are vacuous without a tenant field.
`validate_tenant_ownership` raises the access-denied error exactly when the
object has a `tenant_id` attribute whose value differs from the expected
tenant; an object without the attribute passes unconditionally; and the
tenant-aware query helper filters only model classes with a `tenant_id`
attribute, returning every row of any other model unfiltered. -/
theorem c10_ownership_check_vacuous (obj : PyObject) (tid : PyStr)
    (rows : List GenericRow) :
    (validate_tenant_ownership obj tid = .error .accessDenied403 ↔
       ∃ v, obj.tenantAttr = some v ∧ v ≠ tid) ∧
    (obj.tenantAttr = none → validate_tenant_ownership obj tid = .ok ()) ∧
    (tenant_aware_query false rows tid = rows) ∧
    (∀ r, r ∈ tenant_aware_query true rows tid ↔ r ∈ rows ∧ r.tenantVal = tid) := by
  refine ⟨?_, ?_, ?_, ?_⟩
  · unfold validate_tenant_ownership
    cases h : obj.tenantAttr with
    | none => simp
    | some v =>
      by_cases hv : v = tid <;> simp [hv]
  · intro h
    unfold validate_tenant_ownership
    rw [h]
  · rfl
  · intro r
    unfold tenant_aware_query
    simp [List.mem_filter]

/-- Witness for C10: an object lacking the `tenant_id` attribute passes the
ownership check for any tenant, and the unfiltered query returns a foreign row. -/
theorem c10_ownership_check_vacuous_witness :
    validate_tenant_ownership ⟨none⟩ (("y").data) = .ok () ∧
    tenant_aware_query false [⟨1, ("x").data⟩] (("y").data) = [⟨1, ("x").data⟩] :=
  ⟨(c10_ownership_check_vacuous ⟨none⟩ (("y").data) [⟨1, ("x").data⟩]).2.1 rfl,
   (c10_ownership_check_vacuous ⟨none⟩ (("y").data) [⟨1, ("x").data⟩]).2.2.1⟩

/-- C2: for an identifier whose registry record is inactive, opening a session
fails with the tenant-inactive error: `get_tenant_shard` consults the registry
afresh with no cache, so the active-status check at session-open time is never
shortcut; even when the middleware's in-process cache holds a stale record for
the identifier from before deactivation, the request pipeline still ends in
the tenant-inactive session error. -/
theorem c2_inactive_rejected_at_session_open
    (reg : List TenantRecord) (tid : PyStr) (r : TenantRecord)
    (hfind : find_by_tenant_id reg tid = some r) (hinact : r.is_active = false) :
    get_tenant_shard reg tid = .error .tenantInactive ∧
    get_tenant_session reg tid = .error .tenantInactive ∧
    ∀ (cache : TenantCache) (info : TenantInfo) (stale : TenantRecord),
      alookup cache (cacheKey info) = some (some stale) → stale.tenant_id = tid →
      (validate_then_open cache reg info).fst = .sessionError .tenantInactive := by
  have hshard : get_tenant_shard reg tid = .error .tenantInactive := by
    unfold get_tenant_shard
    rw [hfind]
    simp [hinact]
  have hsession : get_tenant_session reg tid = .error .tenantInactive := by
    unfold get_tenant_session
    rw [hshard]
  refine ⟨hshard, hsession, ?_⟩
  intro cache info stale hc hstid
  unfold validate_then_open validate_tenant
  rw [hc]
  simp [hstid, hsession]

/-- Witness for C2: a registry whose only record for `t1` is inactive, and a
middleware cache still holding the stale active record; the session open fails
with the tenant-inactive error. -/
theorem c2_inactive_rejected_at_session_open_witness :
    get_tenant_session [⟨("t1").data, ("T").data, ("t1").data, 1, false⟩]
        (("t1").data) = .error .tenantInactive ∧
    (validate_then_open
        [(cacheKey ⟨("header").data, ("t1").data, ("tenant_id").data⟩,
          some ⟨("t1").data, ("T").data, ("t1").data, 1, true⟩)]
        [⟨("t1").data, ("T").data, ("t1").data, 1, false⟩]
        ⟨("header").data, ("t1").data, ("tenant_id").data⟩).fst =
      .sessionError .tenantInactive := by
  have h := c2_inactive_rejected_at_session_open
    [⟨("t1").data, ("T").data, ("t1").data, 1, false⟩] (("t1").data)
    ⟨("t1").data, ("T").data, ("t1").data, 1, false⟩ (by decide) (by decide)
  exact ⟨h.2.1,
    h.2.2 _ ⟨("header").data, ("t1").data, ("tenant_id").data⟩
      ⟨("t1").data, ("T").data, ("t1").data, 1, true⟩ (by decide) (by decide)⟩

lemma find_by_tenant_id_active_eq_none {reg : List TenantRecord} {tid : PyStr}
    (h : ∀ r ∈ reg, r.tenant_id = tid → r.is_active = false) :
    find_by_tenant_id_active reg tid = none := by
  induction reg with
  | nil => rfl
  | cons r t ih =>
    unfold find_by_tenant_id_active
    rw [if_neg, ih]
    · intro x hx
      exact h x (List.mem_cons_of_mem _ hx)
    · rintro ⟨h1, h2⟩
      rw [h r (List.mem_cons_self _ _) h1] at h2
      exact Bool.false_ne_true h2

lemma find_by_subdomain_active_eq_none {reg : List TenantRecord} {sub : PyStr}
    (h : ∀ r ∈ reg, r.subdomain = sub → r.is_active = false) :
    find_by_subdomain_active reg sub = none := by
  induction reg with
  | nil => rfl
  | cons r t ih =>
    unfold find_by_subdomain_active
    rw [if_neg, ih]
    · intro x hx
      exact h x (List.mem_cons_of_mem _ hx)
    · rintro ⟨h1, h2⟩
      rw [h r (List.mem_cons_self _ _) h1] at h2
      exact Bool.false_ne_true h2

lemma registry_lookup_eq_none {reg : List TenantRecord} {info : TenantInfo}
    (h : ∀ r ∈ reg, record_matches info r → r.is_active = false) :
    registry_lookup reg info = none := by
  unfold registry_lookup
  unfold record_matches at h
  by_cases ht : info.lookupType = ("subdomain").data
  · rw [if_pos ht]
    refine find_by_subdomain_active_eq_none ?_
    intro r hr hsub
    have := h r hr
    rw [if_pos ht] at this
    exact this hsub
  · rw [if_neg ht]
    refine find_by_tenant_id_active_eq_none ?_
    intro r hr htid
    have := h r hr
    rw [if_neg ht] at this
    exact this htid

/-- C6: existence non-leakage.  For a detection record not answered from the
cache, the response when the identifier has no matching registry record at all
is identical, status code and body, to the response when matching records
exist but are all deactivated; both are the same not-found client error with
status 404, so a caller cannot distinguish a never-registered tenant from a
deactivated one. -/
theorem c6_existence_non_leakage (info : TenantInfo) (cache : TenantCache)
    (regMissing regInactive : List TenantRecord)
    (hc : alookup cache (cacheKey info) = none)
    (hmiss : ∀ r ∈ regMissing, ¬ record_matches info r)
    (_hexists : ∃ r ∈ regInactive, record_matches info r)
    (hinact : ∀ r ∈ regInactive, record_matches info r → r.is_active = false) :
    (dispatch_validated cache regMissing info).fst =
      (dispatch_validated cache regInactive info).fst ∧
    (dispatch_validated cache regMissing info).fst =
      .errorResponse (handle_invalid_tenant info) ∧
    (handle_invalid_tenant info).status = 404 := by
  have h1 : registry_lookup regMissing info = none :=
    registry_lookup_eq_none (fun r hr hm => absurd hm (hmiss r hr))
  have h2 : registry_lookup regInactive info = none :=
    registry_lookup_eq_none hinact
  unfold dispatch_validated validate_tenant
  rw [hc, h1, h2]
  exact ⟨rfl, rfl, rfl⟩

/-- Witness for C6: with an empty cache, the responses for an identifier with
no registry record and for the same identifier with a deactivated record are
equal, and are the 404 not-found response. -/
theorem c6_existence_non_leakage_witness :
    (dispatch_validated [] [] ⟨("header").data, ("t1").data, ("tenant_id").data⟩).fst =
      (dispatch_validated []
        [⟨("t1").data, ("T").data, ("t1").data, 1, false⟩]
        ⟨("header").data, ("t1").data, ("tenant_id").data⟩).fst ∧
    (dispatch_validated [] [] ⟨("header").data, ("t1").data, ("tenant_id").data⟩).fst =
      .errorResponse
        (handle_invalid_tenant ⟨("header").data, ("t1").data, ("tenant_id").data⟩) ∧
    (handle_invalid_tenant
        ⟨("header").data, ("t1").data, ("tenant_id").data⟩).status = 404 :=
  c6_existence_non_leakage ⟨("header").data, ("t1").data, ("tenant_id").data⟩ []
    [] [⟨("t1").data, ("T").data, ("t1").data, 1, false⟩]
    (by decide) (by decide)
    ⟨⟨("t1").data, ("T").data, ("t1").data, 1, false⟩, by decide, by decide⟩
    (by decide)

lemma py_min_by_spec (key : Nat → Nat) :
    ∀ (t : List Nat) (a : Nat), (∀ x ∈ t, a < x) → t.Pairwise (· < ·) →
      (py_min_by key a t = a ∨ py_min_by key a t ∈ t) ∧
      key (py_min_by key a t) ≤ key a ∧
      (∀ x ∈ t, key (py_min_by key a t) ≤ key x) ∧
      (∀ x, (x = a ∨ x ∈ t) → key x = key (py_min_by key a t) →
        py_min_by key a t ≤ x) := by
  intro t
  induction t with
  | nil =>
    intro a _ _
    refine ⟨Or.inl rfl, le_refl _, by simp, ?_⟩
    rintro x (rfl | hx) _
    · exact le_refl _
    · simp at hx
  | cons b t ih =>
    intro a hlt hpw
    have hab : a < b := hlt b (List.mem_cons_self _ _)
    have hbt : ∀ x ∈ t, b < x := (List.pairwise_cons.mp hpw).1
    have hpt : t.Pairwise (· < ·) := (List.pairwise_cons.mp hpw).2
    have hstep : py_min_by key a (b :: t) =
        py_min_by key (if key b < key a then b else a) t := by
      simp [py_min_by]
    by_cases hkey : key b < key a
    · rw [hstep, if_pos hkey]
      obtain ⟨hmem, hle, hmin, htie⟩ := ih b hbt hpt
      refine ⟨?_, ?_, ?_, ?_⟩
      · rcases hmem with h | h
        · exact Or.inr (by rw [h]; exact List.mem_cons_self _ _)
        · exact Or.inr (List.mem_cons_of_mem _ h)
      · exact le_of_lt (lt_of_le_of_lt hle hkey)
      · intro x hx
        rcases List.mem_cons.mp hx with rfl | hx'
        · exact hle
        · exact hmin x hx'
      · rintro x (rfl | hx) hk
        · exact absurd hk (by omega)
        · rcases List.mem_cons.mp hx with rfl | hx'
          · exact htie _ (Or.inl rfl) hk
          · exact htie x (Or.inr hx') hk
    · rw [hstep, if_neg hkey]
      have hat : ∀ x ∈ t, a < x := fun x hx => lt_trans hab (hbt x hx)
      obtain ⟨hmem, hle, hmin, htie⟩ := ih a hat hpt
      have hkab : key a ≤ key b := le_of_not_lt hkey
      refine ⟨?_, hle, ?_, ?_⟩
      · rcases hmem with h | h
        · exact Or.inl h
        · exact Or.inr (List.mem_cons_of_mem _ h)
      · intro x hx
        rcases List.mem_cons.mp hx with rfl | hx'
        · exact le_trans hle hkab
        · exact hmin x hx'
      · rintro x (rfl | hx) hk
        · exact htie _ (Or.inl rfl) hk
        · rcases List.mem_cons.mp hx with rfl | hx'
          · have hka : key a = key (py_min_by key a t) := by omega
            exact le_of_lt (lt_of_le_of_lt (htie a (Or.inl rfl) hka) hab)
          · exact htie x (Or.inr hx') hk

lemma database_shard_ids_shape (s : ShardSettings) :
    ∃ rest, database_shard_ids s = 1 :: rest ∧
      (∀ x ∈ rest, 1 < x) ∧ rest.Pairwise (· < ·) := by
  rcases s with ⟨b2, b3⟩
  cases b2 <;> cases b3 <;> exact ⟨_, rfl, by decide, by decide⟩

/-- C3: shard-choice tie-break.  For every non-empty shard-count map, the
least-loaded-shard policy returns a configured shard whose recorded count
(zero for shards without an entry) is minimal, and which is the lowest shard
id among those attaining that minimum; in particular, on counts
`{1 : 5, 2 : 3, 3 : 3}` it returns shard `2`. -/
theorem c3_choose_shard_lowest_among_min (s : ShardSettings)
    (counts : List (Nat × Nat)) (hne : counts ≠ []) :
    (least_loaded_shard s counts ∈ database_shard_ids s ∧
     (∀ x ∈ database_shard_ids s,
        count_get counts (least_loaded_shard s counts) ≤ count_get counts x) ∧
     (∀ x ∈ database_shard_ids s,
        count_get counts x = count_get counts (least_loaded_shard s counts) →
          least_loaded_shard s counts ≤ x)) ∧
    least_loaded_shard ⟨true, true⟩ [(1, 5), (2, 3), (3, 3)] = 2 := by
  refine ⟨?_, by decide⟩
  obtain ⟨rest, hshape, hgt, hpw⟩ := database_shard_ids_shape s
  have hceq : least_loaded_shard s counts = py_min_by (count_get counts) 1 rest := by
    unfold least_loaded_shard
    rw [hshape]
    cases counts with
    | nil => exact absurd rfl hne
    | cons p t => simp
  obtain ⟨hmem, hle, hmin, htie⟩ := py_min_by_spec (count_get counts) rest 1 hgt hpw
  rw [hceq, hshape]
  refine ⟨?_, ?_, ?_⟩
  · rcases hmem with h | h
    · rw [h]; exact List.mem_cons_self _ _
    · exact List.mem_cons_of_mem _ h
  · intro x hx
    rcases List.mem_cons.mp hx with rfl | hx'
    · exact hle
    · exact hmin x hx'
  · intro x hx hk
    rcases List.mem_cons.mp hx with rfl | hx'
    · exact htie _ (Or.inl rfl) hk
    · exact htie x (Or.inr hx') hk

/-- Witness for C3 at the spec's example: counts `{1 : 5, 2 : 3, 3 : 3}` over
three configured shards yield shard `2`. -/
theorem c3_choose_shard_lowest_among_min_witness :
    least_loaded_shard ⟨true, true⟩ [(1, 5), (2, 3), (3, 3)] = 2 :=
  (c3_choose_shard_lowest_among_min ⟨true, true⟩ [(1, 5), (2, 3), (3, 3)]
    (by decide)).2

lemma find_by_tenant_id_append {l1 l2 : List TenantRecord} {tid : PyStr} :
    find_by_tenant_id (l1 ++ l2) tid =
      match find_by_tenant_id l1 tid with
      | some r => some r
      | none => find_by_tenant_id l2 tid := by
  induction l1 with
  | nil => simp [find_by_tenant_id]
  | cons r t ih =>
    by_cases h : r.tenant_id = tid
    · simp [find_by_tenant_id, h]
    · simp [find_by_tenant_id, h, ih]

lemma find_by_tenant_id_eq_none {reg : List TenantRecord} {tid : PyStr}
    (h : ∀ r ∈ reg, r.tenant_id ≠ tid) : find_by_tenant_id reg tid = none := by
  induction reg with
  | nil => rfl
  | cons r t ih =>
    unfold find_by_tenant_id
    rw [if_neg (h r (List.mem_cons_self _ _)), ih]
    intro x hx
    exact h x (List.mem_cons_of_mem _ hx)

lemma set_inactive_fields (r : TenantRecord) :
    (set_inactive r).tenant_id = r.tenant_id ∧
    (set_inactive r).shard_number = r.shard_number := ⟨rfl, rfl⟩

lemma find_by_tenant_id_deactivate (reg : List TenantRecord) (t2 tid : PyStr) :
    find_by_tenant_id (deactivate_tenant reg t2) tid =
      (find_by_tenant_id reg tid).map
        (fun r => if r.tenant_id = t2 then set_inactive r else r) := by
  induction reg with
  | nil => rfl
  | cons r t ih =>
    have hexp : deactivate_tenant (r :: t) t2 =
        (if r.tenant_id = t2 then set_inactive r else r) :: deactivate_tenant t t2 := rfl
    rw [hexp]
    unfold find_by_tenant_id
    by_cases h : r.tenant_id = tid
    · have hid : (if r.tenant_id = t2 then set_inactive r else r).tenant_id = tid := by
        by_cases h2 : r.tenant_id = t2
        · rw [if_pos h2]; exact h
        · rw [if_neg h2]; exact h
      rw [if_pos hid, if_pos h]
      rfl
    · have hid : ¬(if r.tenant_id = t2 then set_inactive r else r).tenant_id = tid := by
        by_cases h2 : r.tenant_id = t2
        · rw [if_pos h2]; exact h
        · rw [if_neg h2]; exact h
      rw [if_neg hid, if_neg h, ih]

lemma shard_preserved_one_op (s : ShardSettings) (reg : List TenantRecord)
    (op : RegistryOp) (tid : PyStr) (r : TenantRecord)
    (h : find_by_tenant_id reg tid = some r) :
    ∃ r', find_by_tenant_id (apply_op s reg op) tid = some r' ∧
      r'.shard_number = r.shard_number := by
  cases op with
  | createOp ct cn cs =>
    unfold apply_op create_tenant
    by_cases hd : duplicate_exists reg ct cs = true
    · simp only [hd, if_true]
      exact ⟨r, h, rfl⟩
    · simp only [hd, if_false, Bool.false_eq_true]
      refine ⟨r, ?_, rfl⟩
      rw [find_by_tenant_id_append, h]
  | deactivateOp dt =>
    unfold apply_op
    rw [find_by_tenant_id_deactivate, h]
    by_cases h2 : r.tenant_id = dt
    · exact ⟨set_inactive r, by simp [h2], (set_inactive_fields r).2⟩
    · exact ⟨r, by simp [h2], rfl⟩

lemma shard_preserved_ops (s : ShardSettings) (ops : List RegistryOp) :
    ∀ (reg : List TenantRecord) (tid : PyStr) (r : TenantRecord),
      find_by_tenant_id reg tid = some r →
      ∃ r', find_by_tenant_id (apply_ops s reg ops) tid = some r' ∧
        r'.shard_number = r.shard_number := by
  induction ops with
  | nil =>
    intro reg tid r h
    exact ⟨r, h, rfl⟩
  | cons op rest ih =>
    intro reg tid r h
    obtain ⟨r1, h1, hs1⟩ := shard_preserved_one_op s reg op tid r h
    obtain ⟨r2, h2, hs2⟩ := ih (apply_op s reg op) tid r1 h1
    exact ⟨r2, h2, hs2.trans hs1⟩

lemma duplicate_exists_iff (reg : List TenantRecord) (tid sub : PyStr) :
    duplicate_exists reg tid sub = true ↔
      ∃ r ∈ reg, r.tenant_id = tid ∨ r.subdomain = sub := by
  unfold duplicate_exists
  rw [List.any_eq_true]
  constructor
  · rintro ⟨r, hr, hp⟩
    rw [Bool.or_eq_true, decide_eq_true_eq, decide_eq_true_eq] at hp
    exact ⟨r, hr, hp⟩
  · rintro ⟨r, hr, hp⟩
    refine ⟨r, hr, ?_⟩
    rw [Bool.or_eq_true, decide_eq_true_eq, decide_eq_true_eq]
    exact hp

/-- C7: shard-assignment immutability.  When registration succeeds and assigns
a tenant its shard, then after any sequence of registry operations (further
creations, deactivations), every lookup of that tenant's record returns that
same shard number, which is the one the least-loaded policy chose at creation
time; no operation changes a record's shard assignment. -/
theorem c7_shard_assignment_immutable (s : ShardSettings)
    (reg : List TenantRecord) (tid name sub : PyStr)
    (rec : TenantRecord) (reg' : List TenantRecord)
    (hcreate : create_tenant s reg tid name sub = (.ok rec, reg'))
    (ops : List RegistryOp) (r' : TenantRecord)
    (hfind : find_by_tenant_id (apply_ops s reg' ops) tid = some r') :
    r'.shard_number = rec.shard_number ∧
    rec.shard_number = least_loaded_shard s (shard_counts reg) := by
  unfold create_tenant at hcreate
  by_cases hd : duplicate_exists reg tid sub = true
  · rw [if_pos hd] at hcreate
    exact absurd (congrArg Prod.fst hcreate) (by simp)
  · rw [if_neg hd] at hcreate
    have hrec : rec = ⟨tid, name, sub, least_loaded_shard s (shard_counts reg), true⟩ := by
      have := congrArg Prod.fst hcreate
      simpa using this.symm
    have hreg' : reg' = reg ++ [rec] := by
      have := congrArg Prod.snd hcreate
      simp at this
      rw [← this, hrec]
    have hnone : find_by_tenant_id reg tid = none := by
      refine find_by_tenant_id_eq_none ?_
      intro x hx hxt
      exact hd ((duplicate_exists_iff reg tid sub).mpr ⟨x, hx, Or.inl hxt⟩)
    have hfound : find_by_tenant_id reg' tid = some rec := by
      rw [hreg', find_by_tenant_id_append, hnone]
      simp [find_by_tenant_id, hrec]
    obtain ⟨r2, h2, hs2⟩ := shard_preserved_ops s ops reg' tid rec hfound
    rw [hfind] at h2
    cases h2
    exact ⟨hs2, by rw [hrec]⟩

/-- Witness for C7: registering `t1` on an empty registry with one configured
shard assigns shard 1; after deactivating it, the lookup still returns a
record on shard 1. -/
theorem c7_shard_assignment_immutable_witness :
    (set_inactive ⟨("t1").data, ("T").data, ("t1").data, 1, true⟩).shard_number =
        (⟨("t1").data, ("T").data, ("t1").data, 1, true⟩ : TenantRecord).shard_number ∧
      (⟨("t1").data, ("T").data, ("t1").data, 1, true⟩ : TenantRecord).shard_number =
        least_loaded_shard ⟨false, false⟩ (shard_counts []) :=
  c7_shard_assignment_immutable ⟨false, false⟩ [] (("t1").data) (("T").data)
    (("t1").data) ⟨("t1").data, ("T").data, ("t1").data, 1, true⟩
    [⟨("t1").data, ("T").data, ("t1").data, 1, true⟩] rfl
    [.deactivateOp (("t1").data)]
    (set_inactive ⟨("t1").data, ("T").data, ("t1").data, 1, true⟩) (by decide)

/-- C8: registration uniqueness.  When a registry row already holds the
identifier or the routing key, creation fails with the duplicate-tenant
conflict and leaves the registry unchanged (the rejection comes from the
store's uniqueness constraint at insert time; `create_tenant` performs no
pre-check); otherwise it assigns the shard the least-loaded policy picks from
a fresh count of the current registry, appends exactly the new active record,
and returns it. -/
theorem c8_registration_uniqueness (s : ShardSettings) (reg : List TenantRecord)
    (tid name sub : PyStr) :
    ((∃ r ∈ reg, r.tenant_id = tid ∨ r.subdomain = sub) →
       create_tenant s reg tid name sub = (.error .duplicateTenant, reg)) ∧
    ((∀ r ∈ reg, r.tenant_id ≠ tid ∧ r.subdomain ≠ sub) →
       create_tenant s reg tid name sub =
         (.ok ⟨tid, name, sub, least_loaded_shard s (shard_counts reg), true⟩,
          reg ++ [⟨tid, name, sub, least_loaded_shard s (shard_counts reg), true⟩])) := by
  constructor
  · intro hdup
    unfold create_tenant
    rw [if_pos ((duplicate_exists_iff reg tid sub).mpr hdup)]
  · intro hfresh
    unfold create_tenant
    rw [if_neg ?_]
    intro hd
    obtain ⟨r, hr, hp⟩ := (duplicate_exists_iff reg tid sub).mp hd
    rcases hp with h | h
    · exact (hfresh r hr).1 h
    · exact (hfresh r hr).2 h

/-- Witness for C8: on a registry already holding `t1`, re-registering `t1`
fails with the duplicate-tenant conflict and the registry is unchanged. -/
theorem c8_registration_uniqueness_witness :
    create_tenant ⟨false, false⟩ [⟨("t1").data, ("T").data, ("t1").data, 1, true⟩]
        (("t1").data) (("U").data) (("u1").data) =
      (.error .duplicateTenant, [⟨("t1").data, ("T").data, ("t1").data, 1, true⟩]) :=
  (c8_registration_uniqueness ⟨false, false⟩
      [⟨("t1").data, ("T").data, ("t1").data, 1, true⟩]
      (("t1").data) (("U").data) (("u1").data)).1
    ⟨⟨("t1").data, ("T").data, ("t1").data, 1, true⟩, by decide, Or.inl rfl⟩

lemma detect_from_subdomain_eq_core (hostRaw : PyStr) :
    detect_from_subdomain hostRaw =
      detect_from_subdomain_core ((pySplit ':' (pyLower hostRaw)).headD []) := rfl

/-- C5 (amended): subdomain extraction, with the label conditions read on the
lower-cased host after the port (everything from the first colon) is removed.
Whenever that normalized host is not `localhost` and not a bare IPv4 address
and splits on the dot into at least 3 labels whose first matches
`[a-z0-9-]{2,}`, resolution returns exactly that first label (already
lower-cased); when the normalized host is `localhost`, a bare IPv4 address, or
has fewer than 3 labels, subdomain detection yields nothing and resolution
falls through to the header and query methods. -/
theorem c5_subdomain_extraction_amended (hostRaw h : PyStr) (parts : List PyStr)
    (hh : h = (pySplit ':' (pyLower hostRaw)).headD [])
    (hp : parts = pySplit '.' h) :
    (h ≠ ("localhost").data → isIPv4 h = false → 3 ≤ parts.length →
       subdomainPatternOk (parts.headD []) = true → 2 ≤ (parts.headD []).length →
       detect_from_subdomain hostRaw = some (parts.headD []) ∧
       ∀ hdr q, detect_tenant ⟨hostRaw, hdr, q⟩ =
         some ⟨("subdomain").data, parts.headD [], ("subdomain").data⟩) ∧
    ((h = ("localhost").data ∨ isIPv4 h = true ∨ parts.length < 3) →
       detect_from_subdomain hostRaw = none ∧
       ∀ hdr q, detect_tenant ⟨hostRaw, hdr, q⟩ = detect_tenant ⟨[], hdr, q⟩) := by
  constructor
  · intro hL hIP h3 hpat hlen
    have hcore : detect_from_subdomain_core h = some (parts.headD []) := by
      unfold detect_from_subdomain_core
      rw [← hp, if_neg, if_pos h3, if_pos ⟨hpat, hlen⟩]
      rintro (h1 | h2 | h3x)
      · exact hL h1
      · have hip : isIPv4 h = true := by rw [h2]; decide
        rw [hip] at hIP
        simp at hIP
      · rw [h3x] at hIP
        simp at hIP
    have hsub : detect_from_subdomain hostRaw = some (parts.headD []) := by
      rw [detect_from_subdomain_eq_core, ← hh]
      exact hcore
    refine ⟨hsub, ?_⟩
    intro hdr q
    simp [detect_tenant, hsub]
  · intro hneg
    have hcore : detect_from_subdomain_core h = none := by
      unfold detect_from_subdomain_core
      rw [← hp]
      rcases hneg with h1 | h2 | h3x
      · rw [if_pos (Or.inl h1)]
      · rw [if_pos (Or.inr (Or.inr h2))]
      · by_cases hc : h = ("localhost").data ∨ h = ("127.0.0.1").data ∨ isIPv4 h = true
        · rw [if_pos hc]
        · rw [if_neg hc, if_neg (by omega)]
    have hsub : detect_from_subdomain hostRaw = none := by
      rw [detect_from_subdomain_eq_core, ← hh]
      exact hcore
    have hempty : detect_from_subdomain ([] : PyStr) = none := by decide
    refine ⟨hsub, ?_⟩
    intro hdr q
    simp [detect_tenant, hsub, hempty]

/-- Witness for the amended C5: the host header
`lincoln-high.gradeinsight.com:8000` yields the subdomain `lincoln-high`. -/
theorem c5_subdomain_extraction_amended_witness :
    detect_from_subdomain (("lincoln-high.gradeinsight.com:8000").data) =
      some (("lincoln-high").data) :=
  ((c5_subdomain_extraction_amended
      (("lincoln-high.gradeinsight.com:8000").data)
      (("lincoln-high.gradeinsight.com").data)
      [("lincoln-high").data, ("gradeinsight").data, ("com").data]
      (by decide) (by decide)).1
    (by decide) (by decide) (by decide) (by decide) (by decide)).1

/-- C5 counterexample: the host header `ab.cd:1.2` satisfies every hypothesis
of the claim read on the raw header value — it splits on the dot into 3
labels, its first label `ab` matches `[a-z0-9-]{2,}`, and it is neither
`localhost` nor a bare IPv4 address — yet subdomain detection yields nothing
and resolution is unresolved, instead of returning `ab` as the claim states:
the code counts labels only after stripping everything from the first colon,
leaving `ab.cd` with 2 labels. -/
theorem c5_subdomain_extraction_counterexample :
    3 ≤ (pySplit '.' (("ab.cd:1.2").data)).length ∧
    (pySplit '.' (("ab.cd:1.2").data)).headD [] = ("ab").data ∧
    subdomainPatternOk (("ab").data) = true ∧
    2 ≤ (("ab").data).length ∧
    (("ab.cd:1.2").data) ≠ ("localhost").data ∧
    isIPv4 (("ab.cd:1.2").data) = false ∧
    detect_from_subdomain (("ab.cd:1.2").data) = none ∧
    detect_tenant ⟨("ab.cd:1.2").data, [], []⟩ = none := by
  decide
